import Mathlib

/-!
Verification development for the EMCA shared server library data API
(`server/include/emca/dataapi.h`): the path/intersection data store
(`DataApi`) and the heatmap aggregation engine (`DataApi::HeatmapApi`),
embedded shallowly in Lean.

Machine integers: every `uint32_t` quantity is modelled as a `Nat`, with
wrapping (`% U32`) applied exactly where C++ unsigned arithmetic wraps.
Floating-point values (`float`, `Point3f`, `Color4f`) are modelled over `Rat`;
none of the verified properties depends on rounding behaviour.
-/

/-- Modulus of C++ `uint32_t` arithmetic: 2^32. -/
def U32 : Nat := 2 ^ 32

/-- The value of the `uint32_t` expression `-1U`, used by `DataApi` as the
sentinel for an unset cursor index (`m_currentSampleIdx {-1U}`,
`m_currentDepthIdx {-1U}`). -/
def U32_SENTINEL : Nat := U32 - 1

/-- Error taxonomy of the data api, from the spec's error-handling design:
`InvalidDimension`, `OutOfRange` (raised by the bounds-checked
`std::vector::at` access in `addPathData` / `addIntersectionData`),
`NotReady` (the `std::logic_error` thrown by `getHeatmapData` before
finalization), `UnknownFace`, `DuplicateId`. -/
inductive EmcaError where
  | OutOfRange
  | NotReady
  | UnknownFace
  | InvalidDimension
  | DuplicateId
  deriving DecidableEq, Repr

/-- Modelled from the spec: the dynamically-typed attribute value accepted by
the templated `addPathData` / `addIntersectionData` overloads (fundamental
types, 1 to 4 components, or a string), re-expressed as a tagged variant per
the spec's design notes. The payload is opaque to the verified properties. -/
inductive AttrValue where
  | num1 (a : Rat)
  | num2 (a b : Rat)
  | num3 (a b c : Rat)
  | num4 (a b c d : Rat)
  | str (s : String)
  deriving DecidableEq, Repr

/-- Modelled from the spec: a 3-component point (`Point3f`, from
`platform.h`, which is not part of the sources). -/
structure Point3f where
  x : Rat
  y : Rat
  z : Rat
  deriving DecidableEq, Repr

/-- Modelled from the spec: a 4-component color (`Color4f`, from
`platform.h`, which is not part of the sources). -/
structure Color4f where
  r : Rat
  g : Rat
  b : Rat
  a : Rat
  deriving DecidableEq, Repr

/-- Modelled from the spec: one Intersection Record (`pathdata.h` is not part
of the sources): fixed geometric/radiometric fields plus an append-only
Attribute Bag of (name, value) entries. -/
structure IntersectionData where
  pos : Option Point3f := none
  nee_pos : Option (Point3f × Bool) := none
  estimate : Option Color4f := none
  emission : Option Color4f := none
  bag : List (String × AttrValue) := []
  deriving DecidableEq, Repr

/-- Modelled from the spec: appending an attribute to an Intersection
Record's bag; repeated keys append additional entries. -/
def IntersectionData.add (d : IntersectionData) (key : String) (val : AttrValue) :
    IntersectionData :=
  { d with bag := d.bag ++ [(key, val)] }

/-- An empty Intersection Record, as created lazily by `intersectionAt`. -/
def IntersectionData.emptyRec : IntersectionData :=
  { pos := none, nee_pos := none, estimate := none, emission := none, bag := [] }

/-- Modelled from the spec: one Path Record (`pathdata.h` is not part of the
sources): origin, final estimate, the ordered sequence of Intersection
Records, and the path's own append-only Attribute Bag. -/
structure PathData where
  origin : Option Point3f := none
  final_estimate : Option Color4f := none
  intersections : List IntersectionData := []
  bag : List (String × AttrValue) := []
  deriving DecidableEq, Repr

/-- Modelled from the spec: `PathData::add`, appending an attribute to the
path's bag. -/
def PathData.add (pd : PathData) (key : String) (val : AttrValue) : PathData :=
  { pd with bag := pd.bag ++ [(key, val)] }

/-- Modelled from the spec: lazy creation of Intersection Records
("created lazily per depth the first time the renderer reports data for that
depth"): the intersection list padded with fresh empty records so that index
`depth` exists. -/
def PathData.intersectionPad (pd : PathData) (depth : Nat) : List IntersectionData :=
  pd.intersections ++ List.replicate (depth + 1 - pd.intersections.length)
    IntersectionData.emptyRec

/-- Modelled from the spec: `intersectionAt(depth).add(key, val)` on a Path
Record: the bag of the Intersection Record at `depth` (created lazily if
needed) receives the new entry. -/
def PathData.addIntersectionAt (pd : PathData) (depth : Nat) (key : String)
    (val : AttrValue) : PathData :=
  let l := pd.intersectionPad depth
  let entry := (l.getD depth IntersectionData.emptyRec).add key val
  { pd with intersections := l.set depth entry }

/-- The mutable state of `DataApi` (header lines 167-176): the flat Path
Record array `m_paths` (layout `H x W x C`), the allocation parameters, the
addressing cursor, and the collection flag. All `uint32_t` members are
modelled as `Nat`. -/
structure DataApiState where
  m_paths : List PathData
  m_height : Nat
  m_width : Nat
  m_sampleCount : Nat
  m_x : Nat
  m_y : Nat
  m_currentSampleIdx : Nat
  m_currentDepthIdx : Nat
  m_isCollecting : Bool
  deriving DecidableEq, Repr

/-- State of a default-constructed `DataApi`: `m_paths` is an empty vector,
`m_currentSampleIdx` and `m_currentDepthIdx` hold the sentinel `-1U`, and
`m_isCollecting` is `false` (in-class initializers, header lines 174-176).
The members `m_height`, `m_width`, `m_sampleCount`, `m_x`, `m_y` have no
initializer in the header and are therefore taken as parameters
(indeterminate values). -/
def DataApi.initState (h w sc x y : Nat) : DataApiState :=
  { m_paths := []
    m_height := h
    m_width := w
    m_sampleCount := sc
    m_x := x
    m_y := y
    m_currentSampleIdx := U32_SENTINEL
    m_currentDepthIdx := U32_SENTINEL
    m_isCollecting := false }

/-- Modelled from the spec: `DataApi::get_current_id` (only declared in the
header; the member comment documents the layout
`(x,y,c) -> y*(W*C) + x*C + c`, and the declared return and argument types
are `uint32_t`, so the computation wraps modulo 2^32). -/
def DataApi.get_current_id (s : DataApiState) (x y c : Nat) : Nat :=
  (y * (s.m_width * s.m_sampleCount) + x * s.m_sampleCount + c) % U32

/-- Models `DataApi::enable`: `m_isCollecting = true` (header line 112). -/
def DataApi.enable (s : DataApiState) : DataApiState :=
  { s with m_isCollecting := true }

/-- Models `DataApi::disable`: `m_isCollecting = false` (header line 113). -/
def DataApi.disable (s : DataApiState) : DataApiState :=
  { s with m_isCollecting := false }

/-- Models `DataApi::isCollecting` (header line 114). -/
def DataApi.isCollecting (s : DataApiState) : Bool :=
  s.m_isCollecting

/-- Modelled from the spec: `DataApi::setCurrentPixel` (declared only). Sets
the pixel cursor; the depth index returns to the unset sentinel state, since
per the spec a depth index is only considered set "since the last pixel
change". -/
def DataApi.setCurrentPixel (s : DataApiState) (x y : Nat) : DataApiState :=
  { s with m_x := x % U32, m_y := y % U32, m_currentDepthIdx := U32_SENTINEL }

/-- Modelled from the spec: `DataApi::setPathIdx` (declared only); no bounds
validation here, validated lazily on write. -/
def DataApi.setPathIdx (s : DataApiState) (sampleIdx : Nat) : DataApiState :=
  { s with m_currentSampleIdx := sampleIdx % U32 }

/-- Modelled from the spec: `DataApi::setDepthIdx` (declared only); no bounds
validation here, validated lazily on write. -/
def DataApi.setDepthIdx (s : DataApiState) (depthIdx : Nat) : DataApiState :=
  { s with m_currentDepthIdx := depthIdx % U32 }

/-- Models `DataApi::clear`: `m_paths.clear()` (header line 165); only the Path
Record array is emptied, no other member is touched. -/
def DataApi.clear (s : DataApiState) : DataApiState :=
  { s with m_paths := [] }

/-- Models `DataApi::addPathData` (header lines 60-82; the four arity overloads are
folded into one entry point over `AttrValue`): if collecting, write the
attribute into `m_paths.at(get_current_id(m_x, m_y, m_currentSampleIdx))`;
the bounds-checked `at` raises `OutOfRange` (`std::out_of_range`) when the
index is not below the vector's size, and then nothing is written. If not
collecting, silently do nothing. -/
def DataApi.addPathData (s : DataApiState) (key : String) (val : AttrValue) :
    Except EmcaError DataApiState :=
  if s.m_isCollecting then
    let i := DataApi.get_current_id s s.m_x s.m_y s.m_currentSampleIdx
    if hlt : i < s.m_paths.length then
      Except.ok { s with m_paths := s.m_paths.set i ((s.m_paths.get ⟨i, hlt⟩).add key val) }
    else
      Except.error EmcaError.OutOfRange
  else
    Except.ok s

/-- Models `DataApi::addIntersectionData` (header lines 84-106; arity overloads
folded into one entry point): if collecting and the depth cursor is not the
`-1U` sentinel, write the attribute into the Intersection Record at
`m_currentDepthIdx` of `m_paths.at(get_current_id(...))`; the bounds-checked
`at` raises `OutOfRange` when the index is out of range. Otherwise silently
do nothing. -/
def DataApi.addIntersectionData (s : DataApiState) (key : String) (val : AttrValue) :
    Except EmcaError DataApiState :=
  if s.m_isCollecting ∧ s.m_currentDepthIdx ≠ U32_SENTINEL then
    let i := DataApi.get_current_id s s.m_x s.m_y s.m_currentSampleIdx
    if hlt : i < s.m_paths.length then
      let pd := (s.m_paths.get ⟨i, hlt⟩).addIntersectionAt s.m_currentDepthIdx key val
      Except.ok { s with m_paths := s.m_paths.set i pd }
    else
      Except.error EmcaError.OutOfRange
  else
    Except.ok s

/-- Modelled from the spec: one Face Subdivision Node (the bodies of
`HeatmapApi::initialize` / `addSample` / `finalize` / `reset` are not in the
header): a node holds accumulated weighted value, accumulated weight and
sample count, and is either a leaf or has been subdivided into child nodes
(the spec leaves the child count N implementation-defined; it is modelled
here as N = 2). Once subdivided, a node never reverts to a leaf. -/
inductive FaceNode where
  | leaf (value weight : Rat) (samples : Nat)
  | node (value weight : Rat) (samples : Nat) (lo hi : FaceNode)
  deriving DecidableEq, Repr

/-- Number of Face Subdivision Nodes in a tree. -/
def FaceNode.countNodes : FaceNode → Nat
  | .leaf _ _ _ => 1
  | .node _ _ _ lo hi => 1 + lo.countNodes + hi.countNodes

/-- Total number of samples directly accumulated into the nodes of a tree. -/
def FaceNode.totalSamples : FaceNode → Nat
  | .leaf _ _ n => n
  | .node _ _ n lo hi => n + lo.totalSamples + hi.totalSamples

/-- Maximum sample count over the nodes of a tree (used by the density-mode
finalization). -/
def FaceNode.maxSamples : FaceNode → Nat
  | .leaf _ _ n => n
  | .node _ _ n lo hi => max n (max lo.maxSamples hi.maxSamples)

/-- All accumulators of the tree are zeroed. -/
def FaceNode.cleared : FaceNode → Bool
  | .leaf v w n => v == 0 && w == 0 && n == 0
  | .node v w n lo hi => v == 0 && w == 0 && n == 0 && lo.cleared && hi.cleared

/-- Modelled from the spec: clearing the accumulators of a tree while
retaining the subdivision topology (used by `HeatmapApi::reset`). -/
def FaceNode.clearNode : FaceNode → FaceNode
  | .leaf _ _ _ => .leaf 0 0 0
  | .node _ _ _ lo hi => .node 0 0 0 lo.clearNode hi.clearNode

/-- Modelled from the spec: the per-tree part of `HeatmapApi::addSample`:
descend to the leaf whose region contains the point (the point-in-region test
is supplied by the external geometry collaborator and is modelled as a
deterministic choice driven by the bits of `p`), then accumulate
`value * weight` into the leaf's running sum, `weight` into its running
weight, and increment its sample count. If the leaf has already received at
least `threshold` samples (the implementation-defined saturation threshold)
and the global budget admits two more nodes, the leaf is first subdivided and
the sample accumulates into the fresh child containing the point; the parent
keeps its previous accumulators (nothing is redistributed retroactively).
Returns the new tree and the updated count of subdivision nodes created. -/
def FaceNode.addSample (threshold budget : Nat) (value weight : Rat) :
    FaceNode → Nat → Nat → FaceNode × Nat
  | .leaf v w n, p, created =>
    if threshold ≤ n ∧ created + 2 ≤ budget then
      if p % 2 = 0 then
        (.node v w n (.leaf (value * weight) weight 1) (.leaf 0 0 0), created + 2)
      else
        (.node v w n (.leaf 0 0 0) (.leaf (value * weight) weight 1), created + 2)
    else
      (.leaf (v + value * weight) (w + weight) (n + 1), created)
  | .node v w n lo hi, p, created =>
    if p % 2 = 0 then
      let r := FaceNode.addSample threshold budget value weight lo (p / 2) created
      (.node v w n r.1 hi, r.2)
    else
      let r := FaceNode.addSample threshold budget value weight hi (p / 2) created
      (.node v w n lo r.1, r.2)

/-- Modelled from the spec: the finalization pass on one tree: every node
propagates its own accumulated value and weight downward to its children, and
each leaf's final value becomes `accumulatedValue / accumulatedWeight` (with
the neutral value 0 when the weight is zero). -/
def FaceNode.propagate : Rat → Rat → FaceNode → FaceNode
  | pv, pw, .leaf v w n =>
    if w + pw = 0 then .leaf 0 0 n else .leaf ((v + pv) / (w + pw)) 1 n
  | pv, pw, .node v w n lo hi =>
    .node v w n (FaceNode.propagate (pv + v) (pw + w) lo) (FaceNode.propagate (pv + v) (pw + w) hi)

/-- Modelled from the spec: the density-mode finalization on one tree: each
leaf's value is replaced by its sample count normalized against the maximum
sample count `m` over the mesh. -/
def FaceNode.densityReplace (m : Nat) : FaceNode → FaceNode
  | .leaf _ _ n => .leaf ((n : Rat) / (m : Rat)) 1 n
  | .node v w n lo hi => .node v w n (FaceNode.densityReplace m lo) (FaceNode.densityReplace m hi)

/-- Modelled from the spec: the per-mesh heatmap data (`heatmapdata.h` is not
part of the sources): the mesh's root set of Face Subdivision Nodes, one root
per face. -/
structure HeatmapData where
  faces : List FaceNode := []
  deriving DecidableEq, Repr

/-- The mutable state of `DataApi::HeatmapApi` (header lines 130-163):
display options (`label`, `colormap`, `show_colorbar`, `density_mode`, with
their in-class initializers), the `is_collecting` and `finalized` flags (both
`false` on construction, header lines 156-157), the per-mesh heatmap data,
and (modelled from the spec) the shared subdivision-budget counter: the
configured budget and the number of subdivision nodes created so far. -/
structure HeatmapApiState where
  label : String := "unknown"
  colormap : String := "plasma"
  show_colorbar : Bool := true
  density_mode : Bool := false
  is_collecting : Bool := false
  finalized : Bool := false
  heatmap_data : List HeatmapData := []
  nodes_created : Nat := 0
  subdivision_budget : Nat := 2 ^ 23
  deriving DecidableEq, Repr

/-- State of a default-constructed `HeatmapApi`. -/
def HeatmapApi.initState : HeatmapApiState := {}

/-- The default value of the `subdivision_budget` argument of
`HeatmapApi::initialize`: `1 << 23` (header line 132). -/
def HeatmapApi.default_subdivision_budget : Nat := 2 ^ 23

/-- Modelled from the spec: `HeatmapApi::initialize(meshes, budget)`
(declared only): builds one root Face Subdivision Node per input face across
all supplied meshes (each mesh is reduced to its face count, supplied by the
external geometry collaborator), establishes the shared budget counter, and
enters the collecting, not-finalized state. -/
def HeatmapApi.initHeatmap (h : HeatmapApiState) (meshFaceCounts : List Nat)
    (budget : Nat) : HeatmapApiState :=
  { h with
    heatmap_data := meshFaceCounts.map
      (fun nf => { faces := List.replicate nf (FaceNode.leaf 0 0 0) })
    nodes_created := 0
    subdivision_budget := budget
    is_collecting := true
    finalized := false }

/-- Models `HeatmapApi::initialize` called without an explicit budget argument uses
the default `1 << 23` (header line 132). -/
def HeatmapApi.initHeatmapDefault (h : HeatmapApiState) (meshFaceCounts : List Nat) :
    HeatmapApiState :=
  HeatmapApi.initHeatmap h meshFaceCounts HeatmapApi.default_subdivision_budget

/-- Modelled from the spec: `HeatmapApi::reset` (declared only): clears all
accumulators and the finalized flag, retaining the subdivision topology. -/
def HeatmapApi.reset (h : HeatmapApiState) : HeatmapApiState :=
  { h with
    finalized := false
    heatmap_data := h.heatmap_data.map (fun md => { faces := md.faces.map FaceNode.clearNode }) }

/-- Models `HeatmapApi::enable`: `if (finalized) reset(); is_collecting = true;`
(header line 134). -/
def HeatmapApi.enable (h : HeatmapApiState) : HeatmapApiState :=
  let h2 := if h.finalized then HeatmapApi.reset h else h
  { h2 with is_collecting := true }

/-- Models `HeatmapApi::disable`: `is_collecting = false;` (header line 135). -/
def HeatmapApi.disable (h : HeatmapApiState) : HeatmapApiState :=
  { h with is_collecting := false }

/-- Models `HeatmapApi::isCollecting` (header line 136). -/
def HeatmapApi.isCollecting (h : HeatmapApiState) : Bool :=
  h.is_collecting

/-- Models `HeatmapApi::hasData`: `return finalized;` (header line 144). -/
def HeatmapApi.hasData (h : HeatmapApiState) : Bool :=
  h.finalized

/-- Models `HeatmapApi::getHeatmapData` (header line 145): throws
`std::logic_error` (modelled as `NotReady`) unless finalized, otherwise
returns the heatmap data. -/
def HeatmapApi.getHeatmapData (h : HeatmapApiState) :
    Except EmcaError (List HeatmapData) :=
  if h.finalized then Except.ok h.heatmap_data else Except.error EmcaError.NotReady

/-- Modelled from the spec: `HeatmapApi::addSample(mesh_id, p, face_id,
value, weight)` (declared only): no-op when not collecting; fails with
`UnknownFace` when `(mesh_id, face_id)` was never registered; otherwise
routes the sample into the face's tree, possibly subdividing under the
budget, and updates the created-node counter. `threshold` is the
implementation-defined saturation threshold. -/
def HeatmapApi.addSample (threshold : Nat) (h : HeatmapApiState) (mesh_id : Nat)
    (p : Nat) (face_id : Nat) (value weight : Rat) :
    Except EmcaError HeatmapApiState :=
  if h.is_collecting then
    match h.heatmap_data.get? mesh_id with
    | none => Except.error EmcaError.UnknownFace
    | some md =>
      match md.faces.get? face_id with
      | none => Except.error EmcaError.UnknownFace
      | some root =>
        let r := FaceNode.addSample threshold h.subdivision_budget value weight root p
          h.nodes_created
        Except.ok { h with
          heatmap_data := h.heatmap_data.set mesh_id { md with faces := md.faces.set face_id r.1 }
          nodes_created := r.2 }
  else
    Except.ok h

/-- Modelled from the spec: `HeatmapApi::finalize` (declared only; the header
comment describes it as a small preprocessing step that propagates values to
children of subdivided faces and replaces RGB values by sample density if
requested): propagate accumulated values downward and normalize leaves, or,
in density mode, replace each leaf's value by its sample count normalized
against the mesh's maximum sample count; then set `finalized = true`. -/
def HeatmapApi.finalizeHeatmap (h : HeatmapApiState) : HeatmapApiState :=
  { h with
    finalized := true
    heatmap_data := h.heatmap_data.map (fun md =>
      if h.density_mode then
        let m := md.faces.foldl (fun acc f => max acc f.maxSamples) 0
        { faces := md.faces.map (FaceNode.densityReplace m) }
      else
        { faces := md.faces.map (FaceNode.propagate 0 0) }) }

/-- One call in a `HeatmapApi` usage sequence: an `initialize` with an
explicit budget, an `initialize` with the default budget, or an `addSample`.
-/
inductive HeatmapOp where
  | initOp (meshFaceCounts : List Nat) (budget : Nat)
  | initDefaultOp (meshFaceCounts : List Nat)
  | sampleOp (mesh_id p face_id : Nat) (value weight : Rat)
  deriving DecidableEq, Repr

/-- Applying one call to the heatmap state; a failing `addSample` (unknown
face: a dropped sample, logged, non-fatal per the spec) leaves the state
unchanged. -/
def HeatmapApi.applyOp (threshold : Nat) (h : HeatmapApiState) : HeatmapOp → HeatmapApiState
  | .initOp meshes budget => HeatmapApi.initHeatmap h meshes budget
  | .initDefaultOp meshes => HeatmapApi.initHeatmapDefault h meshes
  | .sampleOp mid p fid v w =>
    match HeatmapApi.addSample threshold h mid p fid v w with
    | .ok h2 => h2
    | .error _ => h

/-- Running a sequence of `initialize` / `addSample` calls. -/
def HeatmapApi.runOps (threshold : Nat) (h : HeatmapApiState) (ops : List HeatmapOp) :
    HeatmapApiState :=
  ops.foldl (HeatmapApi.applyOp threshold) h

/-- Total number of Face Subdivision Nodes over all meshes. -/
def HeatmapApi.totalNodes (l : List HeatmapData) : Nat :=
  (l.map (fun md => (md.faces.map FaceNode.countNodes).sum)).sum

/-- Total number of root nodes (faces) over all meshes. -/
def HeatmapApi.numRoots (l : List HeatmapData) : Nat :=
  (l.map (fun md => md.faces.length)).sum

/-- Total number of directly accumulated samples over all meshes. -/
def HeatmapApi.totalSamples (l : List HeatmapData) : Nat :=
  (l.map (fun md => (md.faces.map FaceNode.totalSamples).sum)).sum

/-- The budget invariant of one heatmap instance: the created-node counter
never exceeds the configured budget, and the counter is exactly the number of
nodes beyond the initial one-root-per-face set. -/
def HeatmapApi.budgetInv (h : HeatmapApiState) : Prop :=
  h.nodes_created ≤ h.subdivision_budget ∧
    HeatmapApi.totalNodes h.heatmap_data
      = HeatmapApi.numRoots h.heatmap_data + h.nodes_created

/-- An empty Path Record, as allocated by `DataApi::initialize`. -/
def PathData.emptyRec : PathData :=
  { origin := none, final_estimate := none, intersections := [], bag := [] }

/-- A small concrete store state used to evaluate the verified properties:
a 3 x 2 image with 4 samples per pixel (24 Path Records), cursor at pixel
(1, 1), sample 2, depth 0, collection enabled. -/
def sampleState : DataApiState :=
  { m_paths := List.replicate 24 PathData.emptyRec
    m_height := 2
    m_width := 3
    m_sampleCount := 4
    m_x := 1
    m_y := 1
    m_currentSampleIdx := 2
    m_currentDepthIdx := 0
    m_isCollecting := true }

/-- A concrete store state whose dimensions overflow 32-bit index
arithmetic: a 2^31-wide single-row image with 4 samples per pixel, so that
`H*W*C = 2^33` does not fit in `uint32_t`. -/
def overflowState : DataApiState :=
  { m_paths := []
    m_height := 1
    m_width := 2 ^ 31
    m_sampleCount := 4
    m_x := 0
    m_y := 0
    m_currentSampleIdx := 0
    m_currentDepthIdx := 0
    m_isCollecting := false }

/-- A concrete store state holding one Path Record, with collection enabled
and the depth cursor in the unset sentinel state. -/
def depthUnsetState : DataApiState :=
  { m_paths := [PathData.emptyRec]
    m_height := 1
    m_width := 1
    m_sampleCount := 1
    m_x := 0
    m_y := 0
    m_currentSampleIdx := 0
    m_currentDepthIdx := U32_SENTINEL
    m_isCollecting := true }

/-- A small concrete heatmap state: one mesh with two root faces, collection
enabled, budget 4, with 2 subdivision nodes already created (matching the
one subdivided root). -/
def sampleHeatmap : HeatmapApiState :=
  { label := "unknown"
    colormap := "plasma"
    show_colorbar := true
    density_mode := false
    is_collecting := true
    finalized := false
    heatmap_data := [{ faces := [FaceNode.node 1 1 3 (FaceNode.leaf 2 1 1) (FaceNode.leaf 0 0 0),
                                 FaceNode.leaf 5 2 2] }]
    nodes_created := 2
    subdivision_budget := 4 }

/-- A concrete heatmap state whose subdivision budget is exhausted: budget 2,
2 subdivision nodes created. -/
def exhaustedHeatmap : HeatmapApiState :=
  { label := "unknown"
    colormap := "plasma"
    show_colorbar := true
    density_mode := false
    is_collecting := true
    finalized := false
    heatmap_data := [{ faces := [FaceNode.node 1 1 3 (FaceNode.leaf 2 1 1) (FaceNode.leaf 0 0 0)] }]
    nodes_created := 2
    subdivision_budget := 2 }

/-- A concrete finalized heatmap state with nonzero accumulators. -/
def finalizedHeatmap : HeatmapApiState :=
  { label := "unknown"
    colormap := "plasma"
    show_colorbar := true
    density_mode := false
    is_collecting := false
    finalized := true
    heatmap_data := [{ faces := [FaceNode.node 1 1 3 (FaceNode.leaf 2 1 1) (FaceNode.leaf 0 0 0)] }]
    nodes_created := 2
    subdivision_budget := 4 }

/-- Replacing the element at a valid index shifts a mapped sum by the
difference of the images. -/
theorem sum_map_set {α : Type} (f : α → Nat) (l : List α) (i : Nat) (a b : α)
    (h : l.get? i = some a) :
    ((l.set i b).map f).sum + f a = (l.map f).sum + f b := by
  induction l generalizing i with
  | nil => simp at h
  | cons x xs ih =>
    cases i with
    | zero =>
      simp only [List.get?_cons_zero, Option.some_inj] at h
      subst h
      simp [List.set]
      omega
    | succ j =>
      simp only [List.get?_cons_succ] at h
      have := ih j h
      simp only [List.set, List.map_cons, List.sum_cons]
      omega

/-- Division and remainder of a mixed-radix value by its base. -/
theorem div_mod_of_mul_add (n a b : Nat) (hb : b < n) :
    (a * n + b) / n = a ∧ (a * n + b) % n = b := by
  have hn : 0 < n := Nat.lt_of_le_of_lt (Nat.zero_le b) hb
  exact (Nat.div_mod_unique hn).mpr ⟨by ring, hb⟩

/-- The linearization `y*(W*C) + x*C + c` of a valid cursor is below
`H*(W*C)`. -/
theorem mixed_radix_lt (W H C x y c : Nat) (hx : x < W) (hy : y < H) (hc : c < C) :
    y * (W * C) + x * C + c < H * (W * C) := by
  have h1 : x * C + c < W * C := by
    have h2 : (x + 1) * C ≤ W * C := Nat.mul_le_mul_right C hx
    calc x * C + c < x * C + C := by omega
      _ = (x + 1) * C := by ring
      _ ≤ W * C := h2
  have h3 : (y + 1) * (W * C) ≤ H * (W * C) := Nat.mul_le_mul_right (W * C) hy
  calc y * (W * C) + x * C + c < y * (W * C) + W * C := by omega
    _ = (y + 1) * (W * C) := by ring
    _ ≤ H * (W * C) := h3

/-- C1 (amended): provided the allocation `H*W*C` fits 32-bit arithmetic,
for every valid cursor `(x, y, c)` (i.e. `x < W`, `y < H`, `c < C`) the
linear index `get_current_id(x, y, c)` equals `y*(W*C) + x*C + c`, the
function is injective on the valid domain, and its image is exactly the
interval `[0, H*W*C)`. -/
theorem claim1_linear_index_bijective (s : DataApiState)
    (hfit : s.m_height * s.m_width * s.m_sampleCount ≤ U32) :
    (∀ x y c, x < s.m_width → y < s.m_height → c < s.m_sampleCount →
      DataApi.get_current_id s x y c
        = y * (s.m_width * s.m_sampleCount) + x * s.m_sampleCount + c) ∧
    (∀ x1 y1 c1 x2 y2 c2, x1 < s.m_width → y1 < s.m_height → c1 < s.m_sampleCount →
      x2 < s.m_width → y2 < s.m_height → c2 < s.m_sampleCount →
      DataApi.get_current_id s x1 y1 c1 = DataApi.get_current_id s x2 y2 c2 →
      x1 = x2 ∧ y1 = y2 ∧ c1 = c2) ∧
    (∀ x y c, x < s.m_width → y < s.m_height → c < s.m_sampleCount →
      DataApi.get_current_id s x y c < s.m_height * s.m_width * s.m_sampleCount) ∧
    (∀ i, i < s.m_height * s.m_width * s.m_sampleCount →
      ∃ x y c, x < s.m_width ∧ y < s.m_height ∧ c < s.m_sampleCount ∧
        DataApi.get_current_id s x y c = i) := by
  set W := s.m_width with hW
  set H := s.m_height with hH
  set C := s.m_sampleCount with hC
  have hfit' : H * (W * C) ≤ U32 := by rw [← Nat.mul_assoc]; exact hfit
  have hassoc : H * W * C = H * (W * C) := Nat.mul_assoc H W C
  have hformula : ∀ x y c, x < W → y < H → c < C →
      DataApi.get_current_id s x y c = y * (W * C) + x * C + c := by
    intro x y c hx hy hc
    have hlt : y * (W * C) + x * C + c < H * (W * C) := mixed_radix_lt W H C x y c hx hy hc
    simp only [DataApi.get_current_id, ← hW, ← hC]
    exact Nat.mod_eq_of_lt (Nat.lt_of_lt_of_le hlt hfit')
  refine ⟨hformula, ?_, ?_, ?_⟩
  · intro x1 y1 c1 x2 y2 c2 hx1 hy1 hc1 hx2 hy2 hc2 heq
    rw [hformula x1 y1 c1 hx1 hy1 hc1, hformula x2 y2 c2 hx2 hy2 hc2] at heq
    have hre1 : y1 * (W * C) + x1 * C + c1 = (y1 * W + x1) * C + c1 := by ring
    have hre2 : y2 * (W * C) + x2 * C + c2 = (y2 * W + x2) * C + c2 := by ring
    rw [hre1, hre2] at heq
    have d1 := div_mod_of_mul_add C (y1 * W + x1) c1 hc1
    have d2 := div_mod_of_mul_add C (y2 * W + x2) c2 hc2
    have hcc : c1 = c2 := by rw [← d1.2, ← d2.2, heq]
    have hyx : y1 * W + x1 = y2 * W + x2 := by rw [← d1.1, ← d2.1, heq]
    have e1 := div_mod_of_mul_add W y1 x1 hx1
    have e2 := div_mod_of_mul_add W y2 x2 hx2
    have hyy : y1 = y2 := by rw [← e1.1, ← e2.1, hyx]
    have hxx : x1 = x2 := by rw [← e1.2, ← e2.2, hyx]
    exact ⟨hxx, hyy, hcc⟩
  · intro x y c hx hy hc
    rw [hformula x y c hx hy hc, hassoc]
    exact mixed_radix_lt W H C x y c hx hy hc
  · intro i hi
    rw [hassoc] at hi
    have hCpos : 0 < C := by
      rcases Nat.eq_zero_or_pos C with h0 | h
      · rw [h0, Nat.mul_zero] at hi; omega
      · exact h
    have hWpos : 0 < W := by
      rcases Nat.eq_zero_or_pos W with h0 | h
      · rw [h0, Nat.zero_mul, Nat.mul_zero] at hi; omega
      · exact h
    have hCW : 0 < C * W := Nat.mul_pos hCpos hWpos
    refine ⟨i / C % W, i / C / W, i % C, Nat.mod_lt _ hWpos, ?_, Nat.mod_lt _ hCpos, ?_⟩
    · rw [Nat.div_div_eq_div_mul]
      refine (Nat.div_lt_iff_lt_mul hCW).mpr ?_
      calc i < H * (W * C) := hi
        _ = H * (C * W) := by ring
    · have e1 : i / C * C + i % C = i := Nat.div_add_mod' i C
      have e2 : i / C / W * W + i / C % W = i / C := Nat.div_add_mod' (i / C) W
      have hval : i / C / W * (W * C) + i / C % W * C + i % C = i := by
        calc i / C / W * (W * C) + i / C % W * C + i % C
            = (i / C / W * W + i / C % W) * C + i % C := by ring
          _ = i / C * C + i % C := by rw [e2]
          _ = i := e1
      have hvlt : i < U32 := Nat.lt_of_lt_of_le hi hfit'
      simp only [DataApi.get_current_id, ← hW, ← hC]
      rw [hval]
      exact Nat.mod_eq_of_lt hvlt

/-- C1, witness: the amended theorem evaluated on the concrete 2 x 3 x 4
store, where the hypothesis `H*W*C <= 2^32` holds. -/
theorem claim1_linear_index_bijective_witness :
    sampleState.m_height * sampleState.m_width * sampleState.m_sampleCount ≤ U32 ∧
    (∀ x y c, x < sampleState.m_width → y < sampleState.m_height →
      c < sampleState.m_sampleCount →
      DataApi.get_current_id sampleState x y c
        = y * (sampleState.m_width * sampleState.m_sampleCount)
            + x * sampleState.m_sampleCount + c) :=
  ⟨by decide, (claim1_linear_index_bijective sampleState (by decide)).1⟩

/-- C1, counterexample: on the `1 x 2^31` image with 4 samples per pixel the
32-bit index computation wraps: the valid cursors `(2^30, 0, 0)` and
`(0, 0, 0)` both map to linear index 0, refuting both the stated formula
`id(x,y,c) = y*(W*C) + x*C + c` and injectivity on the valid domain. -/
theorem claim1_wraparound_counterexample :
    2 ^ 30 < overflowState.m_width ∧ 0 < overflowState.m_height ∧
    0 < overflowState.m_sampleCount ∧
    DataApi.get_current_id overflowState (2 ^ 30) 0 0 = 0 ∧
    DataApi.get_current_id overflowState 0 0 0 = 0 ∧
    DataApi.get_current_id overflowState (2 ^ 30) 0 0
      ≠ 0 * (overflowState.m_width * overflowState.m_sampleCount)
          + 2 ^ 30 * overflowState.m_sampleCount + 0 := by
  refine ⟨by decide, by decide, by decide, ?_, ?_, ?_⟩
  · decide
  · decide
  · decide

/-- C2: while collection is disabled every `addPathData` and
`addIntersectionData` call is a silent no-op: the state (all Path Records and
all cursor fields) is returned unchanged and no error is raised. -/
theorem claim2_disabled_add_is_noop (s : DataApiState) (key1 key2 : String)
    (v1 v2 : AttrValue) (h : s.m_isCollecting = false) :
    DataApi.addPathData s key1 v1 = Except.ok s ∧
    DataApi.addIntersectionData s key2 v2 = Except.ok s := by
  constructor
  · simp [DataApi.addPathData, h]
  · simp [DataApi.addIntersectionData, h]

/-- C2, witness: evaluating the no-op on the concrete store after
`disable()`. -/
theorem claim2_disabled_add_is_noop_witness :
    (DataApi.disable sampleState).m_isCollecting = false ∧
    DataApi.addPathData (DataApi.disable sampleState) "a" (AttrValue.num1 1)
      = Except.ok (DataApi.disable sampleState) ∧
    DataApi.addIntersectionData (DataApi.disable sampleState) "b" (AttrValue.str "s")
      = Except.ok (DataApi.disable sampleState) :=
  ⟨rfl,
   (claim2_disabled_add_is_noop (DataApi.disable sampleState) "a" "b"
     (AttrValue.num1 1) (AttrValue.str "s") rfl).1,
   (claim2_disabled_add_is_noop (DataApi.disable sampleState) "a" "b"
     (AttrValue.num1 1) (AttrValue.str "s") rfl).2⟩

/-- C3: while collecting, a write whose computed linear index is not below
the number of allocated Path Records fails with `OutOfRange` (the
bounds-checked `at` throws before anything is written, so no Path Record is
modified), and a write whose index is in range does not raise `OutOfRange`
(for `addIntersectionData` the out-of-range failure applies once the depth
cursor is set; with the depth cursor unset the call is a no-op and never
raises). -/
theorem claim3_out_of_range_write (s : DataApiState) (key : String) (v : AttrValue)
    (hc : s.m_isCollecting = true) :
    (s.m_paths.length ≤ DataApi.get_current_id s s.m_x s.m_y s.m_currentSampleIdx →
      DataApi.addPathData s key v = Except.error EmcaError.OutOfRange ∧
      (s.m_currentDepthIdx ≠ U32_SENTINEL →
        DataApi.addIntersectionData s key v = Except.error EmcaError.OutOfRange)) ∧
    (DataApi.get_current_id s s.m_x s.m_y s.m_currentSampleIdx < s.m_paths.length →
      (DataApi.addPathData s key v).isOk = true ∧
      (DataApi.addIntersectionData s key v).isOk = true) := by
  constructor
  · intro hle
    have hnot : ¬ DataApi.get_current_id s s.m_x s.m_y s.m_currentSampleIdx
        < s.m_paths.length := Nat.not_lt.mpr hle
    constructor
    · simp [DataApi.addPathData, hc, hnot]
    · intro hd
      simp [DataApi.addIntersectionData, hc, hd, hnot]
  · intro hlt
    constructor
    · simp [DataApi.addPathData, hc, hlt, Except.isOk, Except.toBool]
    · by_cases hd : s.m_currentDepthIdx = U32_SENTINEL
      · simp [DataApi.addIntersectionData, hd, Except.isOk, Except.toBool]
      · simp [DataApi.addIntersectionData, hc, hd, hlt, Except.isOk, Except.toBool]

/-- C3, witness: on the cleared store (0 records) the write at linear index
18 fails with `OutOfRange`; on the 24-record store the same write succeeds.
-/
theorem claim3_out_of_range_write_witness :
    sampleState.m_isCollecting = true ∧
    (DataApi.clear sampleState).m_paths.length
      ≤ DataApi.get_current_id (DataApi.clear sampleState) (DataApi.clear sampleState).m_x
          (DataApi.clear sampleState).m_y (DataApi.clear sampleState).m_currentSampleIdx ∧
    DataApi.addPathData (DataApi.clear sampleState) "a" (AttrValue.num1 1)
      = Except.error EmcaError.OutOfRange ∧
    DataApi.addIntersectionData (DataApi.clear sampleState) "a" (AttrValue.num1 1)
      = Except.error EmcaError.OutOfRange ∧
    (DataApi.addPathData sampleState "a" (AttrValue.num1 1)).isOk = true ∧
    (DataApi.addIntersectionData sampleState "a" (AttrValue.num1 1)).isOk = true :=
  ⟨rfl, by decide,
   ((claim3_out_of_range_write (DataApi.clear sampleState) "a" (AttrValue.num1 1) rfl).1
     (by decide)).1,
   ((claim3_out_of_range_write (DataApi.clear sampleState) "a" (AttrValue.num1 1) rfl).1
     (by decide)).2 (by decide),
   ((claim3_out_of_range_write sampleState "a" (AttrValue.num1 1) rfl).2 (by decide)).1,
   ((claim3_out_of_range_write sampleState "a" (AttrValue.num1 1) rfl).2 (by decide)).2⟩

/-- Reading a replicated list with its own element as default always yields
that element. -/
theorem getD_replicate {α : Type} (n i : Nat) (e : α) :
    (List.replicate n e).getD i e = e := by
  induction n generalizing i with
  | zero => simp [List.getD]
  | succ m ih =>
    cases i with
    | zero => simp [List.replicate]
    | succ j => simp [List.replicate, ih j]

/-- Padding a list on the right with the default element does not change a
defaulted read. -/
theorem getD_append_replicate {α : Type} (l : List α) (e : α) (d : Nat) :
    (l ++ List.replicate (d + 1 - l.length) e).getD d e = l.getD d e := by
  induction l generalizing d with
  | nil => simp [getD_replicate]
  | cons x xs ih =>
    cases d with
    | zero => simp
    | succ j =>
      have hcount : j + 1 + 1 - (xs.length + 1) = j + 1 - xs.length := by omega
      simp only [List.cons_append, List.getD_cons_succ, List.length_cons, hcount]
      exact ih j

/-- Reading back the element just written at a valid index. -/
theorem getD_set_self {α : Type} (l : List α) (i : Nat) (a d : α) (h : i < l.length) :
    (l.set i a).getD i d = a := by
  induction l generalizing i with
  | nil => simp at h
  | cons x xs ih =>
    cases i with
    | zero => simp
    | succ j =>
      simp only [List.length_cons] at h
      simpa [List.set] using ih j (by omega)

/-- The padded intersection list always reaches the requested depth. -/
theorem intersectionPad_length (pd : PathData) (d : Nat) :
    d < (pd.intersectionPad d).length := by
  simp [PathData.intersectionPad]
  omega

/-- Writing an intersection attribute at `depth` appends exactly the new
entry to the bag of the Intersection Record at that depth (an empty record's
bag when the depth was not yet materialized). -/
theorem addIntersectionAt_bag (pd : PathData) (d : Nat) (key : String) (v : AttrValue) :
    ((pd.addIntersectionAt d key v).intersections.getD d IntersectionData.emptyRec).bag
      = (pd.intersections.getD d IntersectionData.emptyRec).bag ++ [(key, v)] := by
  unfold PathData.addIntersectionAt
  simp only
  rw [getD_set_self _ d _ _ (intersectionPad_length pd d)]
  unfold PathData.intersectionPad
  rw [getD_append_replicate]
  rfl

/-- C4: `addIntersectionData` is a silent no-op whenever the depth cursor is
in the `-1U` sentinel state (for every key and value, and regardless of the
collection flag); any `setCurrentPixel` call returns the depth cursor to that
sentinel; and when the depth cursor is set, collection is enabled and the
current Path Record exists, the write is applied to the Intersection Record
at that depth of the current Path Record. -/
theorem claim4_depth_cursor_gate (s : DataApiState) (key : String) (v : AttrValue) :
    (s.m_currentDepthIdx = U32_SENTINEL →
      DataApi.addIntersectionData s key v = Except.ok s) ∧
    (∀ x y, (DataApi.setCurrentPixel s x y).m_currentDepthIdx = U32_SENTINEL) ∧
    (s.m_isCollecting = true → s.m_currentDepthIdx ≠ U32_SENTINEL →
      ∀ hlt : DataApi.get_current_id s s.m_x s.m_y s.m_currentSampleIdx
          < s.m_paths.length,
      ∃ s2, DataApi.addIntersectionData s key v = Except.ok s2 ∧
        ((s2.m_paths.getD (DataApi.get_current_id s s.m_x s.m_y s.m_currentSampleIdx)
            PathData.emptyRec).intersections.getD s.m_currentDepthIdx
            IntersectionData.emptyRec).bag
          = (((s.m_paths.get ⟨DataApi.get_current_id s s.m_x s.m_y s.m_currentSampleIdx,
              hlt⟩).intersections.getD s.m_currentDepthIdx IntersectionData.emptyRec).bag
              ++ [(key, v)])) := by
  refine ⟨?_, ?_, ?_⟩
  · intro hd
    simp [DataApi.addIntersectionData, hd]
  · intro x y
    rfl
  · intro hc hd hlt
    refine ⟨{ s with m_paths := (s.m_paths.set
        (DataApi.get_current_id s s.m_x s.m_y s.m_currentSampleIdx)
        ((s.m_paths.get ⟨DataApi.get_current_id s s.m_x s.m_y s.m_currentSampleIdx,
          hlt⟩).addIntersectionAt s.m_currentDepthIdx key v)) }, ?_, ?_⟩
    · simp [DataApi.addIntersectionData, hc, hd, hlt]
    · simp only
      rw [getD_set_self _ _ _ _ hlt]
      exact addIntersectionAt_bag _ s.m_currentDepthIdx key v

/-- C4, witness: on the store with the depth cursor unset the call is a
no-op; after `setCurrentPixel` the depth cursor is the sentinel; on the store
with depth cursor 0 and a valid Path Record, the write lands in that record's
Intersection Record at depth 0. -/
theorem claim4_depth_cursor_gate_witness :
    depthUnsetState.m_currentDepthIdx = U32_SENTINEL ∧
    DataApi.addIntersectionData depthUnsetState "k" (AttrValue.num1 1)
      = Except.ok depthUnsetState ∧
    (DataApi.setCurrentPixel sampleState 0 0).m_currentDepthIdx = U32_SENTINEL ∧
    sampleState.m_isCollecting = true ∧
    sampleState.m_currentDepthIdx ≠ U32_SENTINEL ∧
    (∀ hlt : DataApi.get_current_id sampleState sampleState.m_x sampleState.m_y
        sampleState.m_currentSampleIdx < sampleState.m_paths.length,
      ∃ s2, DataApi.addIntersectionData sampleState "k" (AttrValue.num1 1)
          = Except.ok s2 ∧
        ((s2.m_paths.getD (DataApi.get_current_id sampleState sampleState.m_x
            sampleState.m_y sampleState.m_currentSampleIdx)
            PathData.emptyRec).intersections.getD sampleState.m_currentDepthIdx
            IntersectionData.emptyRec).bag
          = (((sampleState.m_paths.get ⟨DataApi.get_current_id sampleState
              sampleState.m_x sampleState.m_y sampleState.m_currentSampleIdx,
              hlt⟩).intersections.getD sampleState.m_currentDepthIdx
              IntersectionData.emptyRec).bag ++ [("k", AttrValue.num1 1)])) :=
  ⟨rfl,
   (claim4_depth_cursor_gate depthUnsetState "k" (AttrValue.num1 1)).1 rfl,
   (claim4_depth_cursor_gate sampleState "k" (AttrValue.num1 1)).2.1 0 0,
   rfl, by decide,
   (claim4_depth_cursor_gate sampleState "k" (AttrValue.num1 1)).2.2 rfl (by decide)⟩

/-- C8: the sample-index cursor has no sentinel no-op: in a
default-constructed `DataApi` the cursor `m_currentSampleIdx` holds `2^32-1`
(the `-1U` in-class initializer), `addPathData` while collecting computes the
linear index with that value in wrapping 32-bit arithmetic, and whenever the
resulting index is not below the number of allocated records the call fails
with `OutOfRange` rather than silently doing nothing. -/
theorem claim8_unset_sample_cursor_faults (hH hW hS x y : Nat) (s : DataApiState)
    (key : String) (v : AttrValue)
    (hc : s.m_isCollecting = true) (hs : s.m_currentSampleIdx = U32_SENTINEL) :
    (DataApi.initState hH hW hS x y).m_currentSampleIdx = 2 ^ 32 - 1 ∧
    DataApi.get_current_id s s.m_x s.m_y s.m_currentSampleIdx
      = (s.m_y * (s.m_width * s.m_sampleCount) + s.m_x * s.m_sampleCount
          + (2 ^ 32 - 1)) % 2 ^ 32 ∧
    (s.m_paths.length ≤ DataApi.get_current_id s s.m_x s.m_y s.m_currentSampleIdx →
      DataApi.addPathData s key v = Except.error EmcaError.OutOfRange ∧
      DataApi.addPathData s key v ≠ Except.ok s) := by
  refine ⟨rfl, ?_, ?_⟩
  · simp [DataApi.get_current_id, hs, U32_SENTINEL, U32]
  · intro hle
    have hnot : ¬ DataApi.get_current_id s s.m_x s.m_y s.m_currentSampleIdx
        < s.m_paths.length := Nat.not_lt.mpr hle
    have herr : DataApi.addPathData s key v = Except.error EmcaError.OutOfRange := by
      simp [DataApi.addPathData, hc, hnot]
    exact ⟨herr, by simp [herr]⟩

/-- C8, witness: a freshly constructed store after `enable()` has the
sentinel sample cursor, and the very first `addPathData` faults with
`OutOfRange` (the wrapped index `2^32-1` is not below the 0 allocated
records) instead of being a no-op. -/
theorem claim8_unset_sample_cursor_faults_witness :
    (DataApi.enable (DataApi.initState 1 2 3 0 0)).m_isCollecting = true ∧
    (DataApi.enable (DataApi.initState 1 2 3 0 0)).m_currentSampleIdx = U32_SENTINEL ∧
    (DataApi.enable (DataApi.initState 1 2 3 0 0)).m_paths.length
      ≤ DataApi.get_current_id (DataApi.enable (DataApi.initState 1 2 3 0 0))
          (DataApi.enable (DataApi.initState 1 2 3 0 0)).m_x
          (DataApi.enable (DataApi.initState 1 2 3 0 0)).m_y
          (DataApi.enable (DataApi.initState 1 2 3 0 0)).m_currentSampleIdx ∧
    DataApi.addPathData (DataApi.enable (DataApi.initState 1 2 3 0 0)) "a"
        (AttrValue.num1 1) = Except.error EmcaError.OutOfRange ∧
    DataApi.addPathData (DataApi.enable (DataApi.initState 1 2 3 0 0)) "a"
        (AttrValue.num1 1) ≠ Except.ok (DataApi.enable (DataApi.initState 1 2 3 0 0)) :=
  ⟨rfl, rfl, by decide,
   ((claim8_unset_sample_cursor_faults 1 2 3 0 0
      (DataApi.enable (DataApi.initState 1 2 3 0 0)) "a" (AttrValue.num1 1)
      rfl rfl).2.2 (by decide)).1,
   ((claim8_unset_sample_cursor_faults 1 2 3 0 0
      (DataApi.enable (DataApi.initState 1 2 3 0 0)) "a" (AttrValue.num1 1)
      rfl rfl).2.2 (by decide)).2⟩

/-- C9 (amended): `clear()` empties the Path Record array and leaves
`m_height`, `m_width` and `m_sampleCount` (and every other member) unchanged;
afterwards, while collection is enabled, every `addPathData` call fails with
`OutOfRange` (the empty array has no index), and so does every
`addIntersectionData` call whose depth cursor is set — but an
`addIntersectionData` call with the depth cursor in the unset sentinel state
remains a silent no-op, not an error. -/
theorem claim9_clear_then_writes_fault (s : DataApiState) (key : String) (v : AttrValue) :
    (DataApi.clear s).m_paths = [] ∧
    (DataApi.clear s).m_height = s.m_height ∧
    (DataApi.clear s).m_width = s.m_width ∧
    (DataApi.clear s).m_sampleCount = s.m_sampleCount ∧
    (s.m_isCollecting = true →
      DataApi.addPathData (DataApi.clear s) key v = Except.error EmcaError.OutOfRange) ∧
    (s.m_isCollecting = true → s.m_currentDepthIdx ≠ U32_SENTINEL →
      DataApi.addIntersectionData (DataApi.clear s) key v
        = Except.error EmcaError.OutOfRange) ∧
    (s.m_currentDepthIdx = U32_SENTINEL →
      DataApi.addIntersectionData (DataApi.clear s) key v
        = Except.ok (DataApi.clear s)) := by
  refine ⟨rfl, rfl, rfl, rfl, ?_, ?_, ?_⟩
  · intro hc
    simp [DataApi.addPathData, DataApi.clear, hc]
  · intro hc hd
    simp [DataApi.addIntersectionData, DataApi.clear, hc, hd]
  · intro hd
    simp [DataApi.addIntersectionData, DataApi.clear, hd]

/-- C9, witness: after clearing the 24-record store (collection enabled,
depth cursor set) both writes fault with `OutOfRange`, and the allocation
parameters survive the clear. -/
theorem claim9_clear_then_writes_fault_witness :
    sampleState.m_isCollecting = true ∧
    sampleState.m_currentDepthIdx ≠ U32_SENTINEL ∧
    (DataApi.clear sampleState).m_paths = [] ∧
    (DataApi.clear sampleState).m_height = sampleState.m_height ∧
    DataApi.addPathData (DataApi.clear sampleState) "a" (AttrValue.num1 1)
      = Except.error EmcaError.OutOfRange ∧
    DataApi.addIntersectionData (DataApi.clear sampleState) "a" (AttrValue.num1 1)
      = Except.error EmcaError.OutOfRange :=
  ⟨rfl, by decide,
   (claim9_clear_then_writes_fault sampleState "a" (AttrValue.num1 1)).1,
   (claim9_clear_then_writes_fault sampleState "a" (AttrValue.num1 1)).2.1,
   (claim9_clear_then_writes_fault sampleState "a" (AttrValue.num1 1)).2.2.2.2.1 rfl,
   (claim9_clear_then_writes_fault sampleState "a" (AttrValue.num1 1)).2.2.2.2.2.1 rfl
     (by decide)⟩

/-- C9, counterexample: the claim as stated is false: on a cleared store with
collection enabled but the depth cursor in the unset sentinel state,
`addIntersectionData` does not raise an out-of-range error — it is a silent
no-op (the sentinel check precedes the bounds-checked access). -/
theorem claim9_clear_sentinel_counterexample :
    (DataApi.clear depthUnsetState).m_isCollecting = true ∧
    (DataApi.clear depthUnsetState).m_paths = [] ∧
    DataApi.addIntersectionData (DataApi.clear depthUnsetState) "k" (AttrValue.num1 1)
      = Except.ok (DataApi.clear depthUnsetState) ∧
    DataApi.addIntersectionData (DataApi.clear depthUnsetState) "k" (AttrValue.num1 1)
      ≠ Except.error EmcaError.OutOfRange := by
  have h : DataApi.addIntersectionData (DataApi.clear depthUnsetState) "k"
      (AttrValue.num1 1) = Except.ok (DataApi.clear depthUnsetState) := rfl
  exact ⟨rfl, rfl, h, by simp [h]⟩

/-- C10: a default-constructed `DataApi` and a default-constructed
`HeatmapApi` both report `isCollecting() = false`, the heatmap is not
finalized and `hasData() = false`, and before any `enable()` every
`addPathData`, `addIntersectionData` and `addSample` call leaves all recorded
data (indeed the whole state) unchanged. -/
theorem claim10_constructed_disabled (hH hW hS x y : Nat) (key1 key2 : String)
    (v1 v2 : AttrValue) (threshold mid p fid : Nat) (val w : Rat) :
    DataApi.isCollecting (DataApi.initState hH hW hS x y) = false ∧
    HeatmapApi.isCollecting HeatmapApi.initState = false ∧
    HeatmapApi.initState.finalized = false ∧
    HeatmapApi.hasData HeatmapApi.initState = false ∧
    DataApi.addPathData (DataApi.initState hH hW hS x y) key1 v1
      = Except.ok (DataApi.initState hH hW hS x y) ∧
    DataApi.addIntersectionData (DataApi.initState hH hW hS x y) key2 v2
      = Except.ok (DataApi.initState hH hW hS x y) ∧
    HeatmapApi.addSample threshold HeatmapApi.initState mid p fid val w
      = Except.ok HeatmapApi.initState := by
  refine ⟨rfl, rfl, rfl, rfl, ?_, ?_, rfl⟩
  · simp [DataApi.addPathData, DataApi.initState]
  · simp [DataApi.addIntersectionData, DataApi.initState]

/-- Clearing a tree zeroes every accumulator. -/
theorem FaceNode.clearNode_cleared (t : FaceNode) : t.clearNode.cleared = true := by
  induction t with
  | leaf v w n => simp [FaceNode.clearNode, FaceNode.cleared]
  | node v w n lo hi ihlo ihhi => simp [FaceNode.clearNode, FaceNode.cleared, ihlo, ihhi]

/-- Clearing a tree retains its subdivision topology. -/
theorem FaceNode.clearNode_countNodes (t : FaceNode) :
    t.clearNode.countNodes = t.countNodes := by
  induction t with
  | leaf v w n => rfl
  | node v w n lo hi ihlo ihhi => simp [FaceNode.clearNode, FaceNode.countNodes, ihlo, ihhi]

/-- The operation `reset` preserves the total node count of the heatmap. -/
theorem totalNodes_reset (h : HeatmapApiState) :
    HeatmapApi.totalNodes (HeatmapApi.reset h).heatmap_data
      = HeatmapApi.totalNodes h.heatmap_data := by
  simp [HeatmapApi.reset, HeatmapApi.totalNodes, List.map_map, Function.comp_def,
    FaceNode.clearNode_countNodes]

/-- After `reset` every accumulator of every face tree is zero. -/
theorem reset_all_cleared (h : HeatmapApiState) :
    ((HeatmapApi.reset h).heatmap_data.all fun md => md.faces.all FaceNode.cleared)
      = true := by
  simp only [HeatmapApi.reset, List.all_eq_true, List.mem_map]
  rintro md ⟨md0, hmd0, rfl⟩
  simp only [List.all_eq_true, List.mem_map]
  rintro t ⟨t0, ht0, rfl⟩
  exact FaceNode.clearNode_cleared t0

/-- C5: `getHeatmapData()` fails with `NotReadyError` exactly when the
heatmap is not finalized; `finalize()` establishes the finalized state, in
which `getHeatmapData()` returns the heatmap data without error and
`hasData()` is true; `reset()` clears the finalized state again. -/
theorem claim5_get_requires_finalize (h : HeatmapApiState) :
    (HeatmapApi.getHeatmapData h = Except.error EmcaError.NotReady
      ↔ h.finalized = false) ∧
    (h.finalized = true →
      HeatmapApi.getHeatmapData h = Except.ok h.heatmap_data ∧
      HeatmapApi.hasData h = true) ∧
    ((HeatmapApi.finalizeHeatmap h).finalized = true ∧
      HeatmapApi.getHeatmapData (HeatmapApi.finalizeHeatmap h)
        = Except.ok (HeatmapApi.finalizeHeatmap h).heatmap_data ∧
      HeatmapApi.hasData (HeatmapApi.finalizeHeatmap h) = true) ∧
    (HeatmapApi.reset h).finalized = false := by
  refine ⟨?_, ?_, ⟨rfl, rfl, rfl⟩, rfl⟩
  · cases hfin : h.finalized <;> simp [HeatmapApi.getHeatmapData, hfin]
  · intro hf
    exact ⟨by simp [HeatmapApi.getHeatmapData, hf], by simp [HeatmapApi.hasData, hf]⟩

/-- C5, witness: the fresh heatmap faults with `NotReadyError`; the concrete
finalized heatmap serves its data and reports `hasData`. -/
theorem claim5_get_requires_finalize_witness :
    HeatmapApi.getHeatmapData HeatmapApi.initState = Except.error EmcaError.NotReady ∧
    finalizedHeatmap.finalized = true ∧
    HeatmapApi.getHeatmapData finalizedHeatmap = Except.ok finalizedHeatmap.heatmap_data ∧
    HeatmapApi.hasData finalizedHeatmap = true :=
  ⟨(claim5_get_requires_finalize HeatmapApi.initState).1.mpr rfl, rfl,
   ((claim5_get_requires_finalize finalizedHeatmap).2.1 rfl).1,
   ((claim5_get_requires_finalize finalizedHeatmap).2.1 rfl).2⟩

/-- C6: calling the heatmap's `enable()` while finalized performs `reset()`
first and then sets the collecting flag, reaching the collecting,
not-finalized state with all accumulators cleared (and the subdivision
topology retained); calling `enable()` while not finalized only sets the
collecting flag and leaves the accumulated data unchanged. -/
theorem claim6_enable_rearms (h : HeatmapApiState) :
    (h.finalized = true →
      HeatmapApi.enable h = { HeatmapApi.reset h with is_collecting := true } ∧
      (HeatmapApi.enable h).is_collecting = true ∧
      (HeatmapApi.enable h).finalized = false ∧
      ((HeatmapApi.enable h).heatmap_data.all fun md => md.faces.all FaceNode.cleared)
        = true ∧
      HeatmapApi.totalNodes (HeatmapApi.enable h).heatmap_data
        = HeatmapApi.totalNodes h.heatmap_data) ∧
    (h.finalized = false →
      HeatmapApi.enable h = { h with is_collecting := true } ∧
      (HeatmapApi.enable h).heatmap_data = h.heatmap_data) := by
  constructor
  · intro hf
    have he : HeatmapApi.enable h = { HeatmapApi.reset h with is_collecting := true } := by
      simp [HeatmapApi.enable, hf]
    refine ⟨he, by rw [he], by rw [he]; rfl, ?_, ?_⟩
    · rw [he]
      exact reset_all_cleared h
    · rw [he]
      exact totalNodes_reset h
  · intro hf
    have he : HeatmapApi.enable h = { h with is_collecting := true } := by
      simp [HeatmapApi.enable, hf]
    exact ⟨he, by rw [he]⟩

/-- C6, witness: enabling the concrete finalized heatmap clears it and
re-arms collection; enabling the concrete non-finalized heatmap only flips
the flag. -/
theorem claim6_enable_rearms_witness :
    finalizedHeatmap.finalized = true ∧
    (HeatmapApi.enable finalizedHeatmap).is_collecting = true ∧
    (HeatmapApi.enable finalizedHeatmap).finalized = false ∧
    ((HeatmapApi.enable finalizedHeatmap).heatmap_data.all
      fun md => md.faces.all FaceNode.cleared) = true ∧
    sampleHeatmap.finalized = false ∧
    HeatmapApi.enable sampleHeatmap = { sampleHeatmap with is_collecting := true } :=
  ⟨rfl,
   ((claim6_enable_rearms finalizedHeatmap).1 rfl).2.1,
   ((claim6_enable_rearms finalizedHeatmap).1 rfl).2.2.1,
   ((claim6_enable_rearms finalizedHeatmap).1 rfl).2.2.2.1,
   rfl,
   ((claim6_enable_rearms sampleHeatmap).2 rfl).1⟩

/-- Core accounting of one sample routed into a tree: the created-node
counter only grows, it never passes the budget, the tree's node count grows
by exactly the counter's increase, and exactly one sample is accumulated. -/
theorem FaceNode.addSample_spec (threshold budget : Nat) (value weight : Rat)
    (t : FaceNode) (p created : Nat) :
    created ≤ (FaceNode.addSample threshold budget value weight t p created).2 ∧
    (created ≤ budget →
      (FaceNode.addSample threshold budget value weight t p created).2 ≤ budget) ∧
    (FaceNode.addSample threshold budget value weight t p created).1.countNodes + created
      = t.countNodes + (FaceNode.addSample threshold budget value weight t p created).2 ∧
    (FaceNode.addSample threshold budget value weight t p created).1.totalSamples
      = t.totalSamples + 1 := by
  induction t generalizing p created with
  | leaf v w n =>
    by_cases hcond : threshold ≤ n ∧ created + 2 ≤ budget
    · obtain ⟨hc1, hc2⟩ := hcond
      by_cases hp : p % 2 = 0
      · simp [FaceNode.addSample, hc1, hc2, hp, FaceNode.countNodes, FaceNode.totalSamples]
        omega
      · simp [FaceNode.addSample, hc1, hc2, hp, FaceNode.countNodes, FaceNode.totalSamples]
        omega
    · simp [FaceNode.addSample, if_neg hcond, FaceNode.countNodes, FaceNode.totalSamples]
  | node v w n lo hi ihlo ihhi =>
    by_cases hp : p % 2 = 0
    · obtain ⟨a1, a2, a3, a4⟩ := ihlo (p / 2) created
      simp only [FaceNode.addSample, if_pos hp, FaceNode.countNodes, FaceNode.totalSamples]
      exact ⟨a1, fun hb => a2 hb, by omega, by omega⟩
    · obtain ⟨a1, a2, a3, a4⟩ := ihhi (p / 2) created
      simp only [FaceNode.addSample, if_neg hp, FaceNode.countNodes, FaceNode.totalSamples]
      exact ⟨a1, fun hb => a2 hb, by omega, by omega⟩

/-- Reduction of `addSample` when collection is disabled. -/
theorem HeatmapApi.addSample_not_collecting (threshold : Nat) (h : HeatmapApiState)
    (mid p fid : Nat) (value weight : Rat) (hcol : h.is_collecting = false) :
    HeatmapApi.addSample threshold h mid p fid value weight = Except.ok h := by
  simp [HeatmapApi.addSample, hcol]

/-- Reduction of `addSample` for an unknown mesh id. -/
theorem HeatmapApi.addSample_unknown_mesh (threshold : Nat) (h : HeatmapApiState)
    (mid p fid : Nat) (value weight : Rat) (hcol : h.is_collecting = true)
    (hm : h.heatmap_data.get? mid = none) :
    HeatmapApi.addSample threshold h mid p fid value weight
      = Except.error EmcaError.UnknownFace := by
  have hm2 : h.heatmap_data[mid]? = none := by simpa using hm
  simp [HeatmapApi.addSample, hcol, hm2]

/-- Reduction of `addSample` for an unknown face id. -/
theorem HeatmapApi.addSample_unknown_face (threshold : Nat) (h : HeatmapApiState)
    (mid p fid : Nat) (value weight : Rat) (md : HeatmapData)
    (hcol : h.is_collecting = true) (hm : h.heatmap_data.get? mid = some md)
    (hf : md.faces.get? fid = none) :
    HeatmapApi.addSample threshold h mid p fid value weight
      = Except.error EmcaError.UnknownFace := by
  have hm2 : h.heatmap_data[mid]? = some md := by simpa using hm
  have hf2 : md.faces[fid]? = none := by simpa using hf
  simp [HeatmapApi.addSample, hcol, hm2, hf2]

/-- Reduction of `addSample` when the addressed face exists. -/
theorem HeatmapApi.addSample_ok (threshold : Nat) (h : HeatmapApiState)
    (mid p fid : Nat) (value weight : Rat) (md : HeatmapData) (root : FaceNode)
    (hcol : h.is_collecting = true) (hm : h.heatmap_data.get? mid = some md)
    (hf : md.faces.get? fid = some root) :
    HeatmapApi.addSample threshold h mid p fid value weight = Except.ok
      { h with
        heatmap_data := (h.heatmap_data.set mid
          { md with faces := (md.faces.set fid
            (FaceNode.addSample threshold h.subdivision_budget value weight root p
              h.nodes_created).1) })
        nodes_created := (FaceNode.addSample threshold h.subdivision_budget value weight
          root p h.nodes_created).2 } := by
  have hm2 : h.heatmap_data[mid]? = some md := by simpa using hm
  have hf2 : md.faces[fid]? = some root := by simpa using hf
  simp [HeatmapApi.addSample, hcol, hm2, hf2]

/-- Accounting of one `applyOp` sample step when the addressed face exists:
how the counter, the node totals, the root count and the sample totals move.
-/
theorem applyOp_sample_known (threshold : Nat) (h : HeatmapApiState)
    (mid p fid : Nat) (value weight : Rat) (md : HeatmapData) (root : FaceNode)
    (hcol : h.is_collecting = true) (hm : h.heatmap_data.get? mid = some md)
    (hf : md.faces.get? fid = some root) :
    (HeatmapApi.applyOp threshold h (HeatmapOp.sampleOp mid p fid value weight)).nodes_created
      = (FaceNode.addSample threshold h.subdivision_budget value weight root p
          h.nodes_created).2 ∧
    (HeatmapApi.applyOp threshold h
        (HeatmapOp.sampleOp mid p fid value weight)).subdivision_budget
      = h.subdivision_budget ∧
    HeatmapApi.totalNodes (HeatmapApi.applyOp threshold h
        (HeatmapOp.sampleOp mid p fid value weight)).heatmap_data + root.countNodes
      = HeatmapApi.totalNodes h.heatmap_data
        + (FaceNode.addSample threshold h.subdivision_budget value weight root p
            h.nodes_created).1.countNodes ∧
    HeatmapApi.numRoots (HeatmapApi.applyOp threshold h
        (HeatmapOp.sampleOp mid p fid value weight)).heatmap_data
      = HeatmapApi.numRoots h.heatmap_data ∧
    HeatmapApi.totalSamples (HeatmapApi.applyOp threshold h
        (HeatmapOp.sampleOp mid p fid value weight)).heatmap_data + root.totalSamples
      = HeatmapApi.totalSamples h.heatmap_data
        + (FaceNode.addSample threshold h.subdivision_budget value weight root p
            h.nodes_created).1.totalSamples := by
  have hred := HeatmapApi.addSample_ok threshold h mid p fid value weight md root hcol hm hf
  have happ : HeatmapApi.applyOp threshold h (HeatmapOp.sampleOp mid p fid value weight)
      = { h with
          heatmap_data := (h.heatmap_data.set mid
            { md with faces := (md.faces.set fid
              (FaceNode.addSample threshold h.subdivision_budget value weight root p
                h.nodes_created).1) })
          nodes_created := (FaceNode.addSample threshold h.subdivision_budget value weight
            root p h.nodes_created).2 } := by
    simp [HeatmapApi.applyOp, hred]
  rw [happ]
  refine ⟨rfl, rfl, ?_, ?_, ?_⟩
  · have hsum1 := sum_map_set FaceNode.countNodes md.faces fid root
      (FaceNode.addSample threshold h.subdivision_budget value weight root p
        h.nodes_created).1 hf
    have hsum2 := sum_map_set (fun d => (d.faces.map FaceNode.countNodes).sum)
      h.heatmap_data mid md
      { md with faces := (md.faces.set fid
        (FaceNode.addSample threshold h.subdivision_budget value weight root p
          h.nodes_created).1) } hm
    simp only [HeatmapApi.totalNodes] at *
    omega
  · have hsum3 := sum_map_set (fun d => d.faces.length) h.heatmap_data mid md
      { md with faces := (md.faces.set fid
        (FaceNode.addSample threshold h.subdivision_budget value weight root p
          h.nodes_created).1) } hm
    simp only [HeatmapApi.numRoots, List.length_set] at *
    omega
  · have hsum1 := sum_map_set FaceNode.totalSamples md.faces fid root
      (FaceNode.addSample threshold h.subdivision_budget value weight root p
        h.nodes_created).1 hf
    have hsum2 := sum_map_set (fun d => (d.faces.map FaceNode.totalSamples).sum)
      h.heatmap_data mid md
      { md with faces := (md.faces.set fid
        (FaceNode.addSample threshold h.subdivision_budget value weight root p
          h.nodes_created).1) } hm
    simp only [HeatmapApi.totalSamples] at *
    omega

/-- The operation `initialize` establishes the budget invariant: no subdivision node has
been created yet and every tree is a single root. -/
theorem initHeatmap_budgetInv (h : HeatmapApiState) (meshes : List Nat) (budget : Nat) :
    HeatmapApi.budgetInv (HeatmapApi.initHeatmap h meshes budget) := by
  constructor
  · exact Nat.zero_le _
  · simp [HeatmapApi.initHeatmap, HeatmapApi.totalNodes, HeatmapApi.numRoots,
      List.map_map, Function.comp_def, List.map_replicate, List.sum_replicate,
      FaceNode.countNodes, smul_eq_mul, mul_one]

/-- Every single `initialize` / `addSample` call preserves the budget
invariant. -/
theorem applyOp_budgetInv (threshold : Nat) (h : HeatmapApiState) (op : HeatmapOp)
    (hinv : HeatmapApi.budgetInv h) :
    HeatmapApi.budgetInv (HeatmapApi.applyOp threshold h op) := by
  cases op with
  | initOp meshes budget => exact initHeatmap_budgetInv h meshes budget
  | initDefaultOp meshes => exact initHeatmap_budgetInv h meshes _
  | sampleOp mid p fid value weight =>
    by_cases hcol : h.is_collecting = true
    · rcases hm : h.heatmap_data.get? mid with _ | md
      · have hred := HeatmapApi.addSample_unknown_mesh threshold h mid p fid value weight
          hcol hm
        have happ : HeatmapApi.applyOp threshold h
            (HeatmapOp.sampleOp mid p fid value weight) = h := by
          simp [HeatmapApi.applyOp, hred]
        rw [happ]
        exact hinv
      · rcases hf : md.faces.get? fid with _ | root
        · have hred := HeatmapApi.addSample_unknown_face threshold h mid p fid value
            weight md hcol hm hf
          have happ : HeatmapApi.applyOp threshold h
              (HeatmapOp.sampleOp mid p fid value weight) = h := by
            simp [HeatmapApi.applyOp, hred]
          rw [happ]
          exact hinv
        · obtain ⟨k1, k2, k3, k4, k5⟩ := applyOp_sample_known threshold h mid p fid
            value weight md root hcol hm hf
          obtain ⟨b1, b2, b3, b4⟩ := FaceNode.addSample_spec threshold
            h.subdivision_budget value weight root p h.nodes_created
          obtain ⟨i1, i2⟩ := hinv
          constructor
          · rw [k1, k2]
            exact b2 i1
          · rw [k1, k4]
            omega
    · rw [Bool.not_eq_true] at hcol
      have hred := HeatmapApi.addSample_not_collecting threshold h mid p fid value
        weight hcol
      have happ : HeatmapApi.applyOp threshold h
          (HeatmapOp.sampleOp mid p fid value weight) = h := by
        simp [HeatmapApi.applyOp, hred]
      rw [happ]
      exact hinv

/-- The budget invariant is preserved along any sequence of `initialize` and
`addSample` calls. -/
theorem runOps_budgetInv (threshold : Nat) (ops : List HeatmapOp) (h : HeatmapApiState)
    (hinv : HeatmapApi.budgetInv h) :
    HeatmapApi.budgetInv (HeatmapApi.runOps threshold h ops) := by
  induction ops generalizing h with
  | nil => exact hinv
  | cons op rest ih => exact ih _ (applyOp_budgetInv threshold h op hinv)

/-- Once the created-node counter has reached the budget, an `addSample`
call creates no node: the counter and the total node count are unchanged. -/
theorem applyOp_sample_exhausted (threshold : Nat) (h : HeatmapApiState)
    (mid p fid : Nat) (value weight : Rat)
    (hfull : h.nodes_created = h.subdivision_budget) :
    (HeatmapApi.applyOp threshold h
        (HeatmapOp.sampleOp mid p fid value weight)).nodes_created = h.nodes_created ∧
    HeatmapApi.totalNodes (HeatmapApi.applyOp threshold h
        (HeatmapOp.sampleOp mid p fid value weight)).heatmap_data
      = HeatmapApi.totalNodes h.heatmap_data := by
  by_cases hcol : h.is_collecting = true
  · rcases hm : h.heatmap_data.get? mid with _ | md
    · have hred := HeatmapApi.addSample_unknown_mesh threshold h mid p fid value weight
        hcol hm
      have happ : HeatmapApi.applyOp threshold h
          (HeatmapOp.sampleOp mid p fid value weight) = h := by
        simp [HeatmapApi.applyOp, hred]
      rw [happ]
      exact ⟨rfl, rfl⟩
    · rcases hf : md.faces.get? fid with _ | root
      · have hred := HeatmapApi.addSample_unknown_face threshold h mid p fid value
          weight md hcol hm hf
        have happ : HeatmapApi.applyOp threshold h
            (HeatmapOp.sampleOp mid p fid value weight) = h := by
          simp [HeatmapApi.applyOp, hred]
        rw [happ]
        exact ⟨rfl, rfl⟩
      · obtain ⟨k1, k2, k3, k4, k5⟩ := applyOp_sample_known threshold h mid p fid
          value weight md root hcol hm hf
        obtain ⟨b1, b2, b3, b4⟩ := FaceNode.addSample_spec threshold
          h.subdivision_budget value weight root p h.nodes_created
        have hr2 : (FaceNode.addSample threshold h.subdivision_budget value weight root p
            h.nodes_created).2 = h.nodes_created := by
          have := b2 (by omega)
          omega
        exact ⟨by rw [k1, hr2], by omega⟩
  · rw [Bool.not_eq_true] at hcol
    have hred := HeatmapApi.addSample_not_collecting threshold h mid p fid value
      weight hcol
    have happ : HeatmapApi.applyOp threshold h
        (HeatmapOp.sampleOp mid p fid value weight) = h := by
      simp [HeatmapApi.applyOp, hred]
    rw [happ]
    exact ⟨rfl, rfl⟩

/-- A sample routed to a registered face while collecting accumulates exactly
one sample into the heatmap, whether or not any subdivision happens. -/
theorem applyOp_sample_accumulates (threshold : Nat) (h : HeatmapApiState)
    (mid p fid : Nat) (value weight : Rat) (md : HeatmapData) (root : FaceNode)
    (hcol : h.is_collecting = true) (hm : h.heatmap_data.get? mid = some md)
    (hf : md.faces.get? fid = some root) :
    HeatmapApi.totalSamples (HeatmapApi.applyOp threshold h
        (HeatmapOp.sampleOp mid p fid value weight)).heatmap_data
      = HeatmapApi.totalSamples h.heatmap_data + 1 := by
  obtain ⟨k1, k2, k3, k4, k5⟩ := applyOp_sample_known threshold h mid p fid
    value weight md root hcol hm hf
  obtain ⟨b1, b2, b3, b4⟩ := FaceNode.addSample_spec threshold
    h.subdivision_budget value weight root p h.nodes_created
  omega

/-- C7: across any sequence of `initialize` and `addSample` calls the number
of Face Subdivision Nodes created (the total node count beyond the initial
one root per face) never exceeds the configured budget; once the counter has
reached the budget an `addSample` call subdivides nothing while a sample
routed to a registered face still accumulates into the existing leaves; and
an `initialize` without an explicit budget argument uses `1 << 23 = 8388608`.
-/
theorem claim7_subdivision_budget_ceiling (threshold : Nat) (h0 : HeatmapApiState)
    (ops : List HeatmapOp) (hinv : HeatmapApi.budgetInv h0) :
    (HeatmapApi.budgetInv (HeatmapApi.runOps threshold h0 ops) ∧
      HeatmapApi.totalNodes (HeatmapApi.runOps threshold h0 ops).heatmap_data
        ≤ HeatmapApi.numRoots (HeatmapApi.runOps threshold h0 ops).heatmap_data
            + (HeatmapApi.runOps threshold h0 ops).subdivision_budget) ∧
    (∀ mid p fid value weight, h0.nodes_created = h0.subdivision_budget →
      (HeatmapApi.applyOp threshold h0
          (HeatmapOp.sampleOp mid p fid value weight)).nodes_created
        = h0.nodes_created ∧
      HeatmapApi.totalNodes (HeatmapApi.applyOp threshold h0
          (HeatmapOp.sampleOp mid p fid value weight)).heatmap_data
        = HeatmapApi.totalNodes h0.heatmap_data ∧
      (∀ md root, h0.is_collecting = true → h0.heatmap_data.get? mid = some md →
        md.faces.get? fid = some root →
        HeatmapApi.totalSamples (HeatmapApi.applyOp threshold h0
            (HeatmapOp.sampleOp mid p fid value weight)).heatmap_data
          = HeatmapApi.totalSamples h0.heatmap_data + 1)) ∧
    HeatmapApi.default_subdivision_budget = 8388608 := by
  have hrun := runOps_budgetInv threshold ops h0 hinv
  refine ⟨⟨hrun, ?_⟩, ?_, by decide⟩
  · obtain ⟨r1, r2⟩ := hrun
    omega
  · intro mid p fid value weight hfull
    obtain ⟨e1, e2⟩ := applyOp_sample_exhausted threshold h0 mid p fid value weight hfull
    refine ⟨e1, e2, ?_⟩
    intro md root hcol hm hf
    exact applyOp_sample_accumulates threshold h0 mid p fid value weight md root hcol hm hf

/-- C7, witness: a concrete run (initialize one 2-face mesh with budget 4,
then route two samples) keeps the invariant, and on the concrete exhausted
heatmap (budget 2, 2 nodes created) a further sample subdivides nothing. -/
theorem claim7_subdivision_budget_ceiling_witness :
    HeatmapApi.budgetInv HeatmapApi.initState ∧
    HeatmapApi.budgetInv (HeatmapApi.runOps 1 HeatmapApi.initState
      [HeatmapOp.initOp [2] 4, HeatmapOp.sampleOp 0 0 0 1 1,
       HeatmapOp.sampleOp 0 0 0 1 1]) ∧
    exhaustedHeatmap.nodes_created = exhaustedHeatmap.subdivision_budget ∧
    (HeatmapApi.applyOp 1 exhaustedHeatmap
        (HeatmapOp.sampleOp 0 0 0 1 1)).nodes_created
      = exhaustedHeatmap.nodes_created ∧
    HeatmapApi.totalNodes (HeatmapApi.applyOp 1 exhaustedHeatmap
        (HeatmapOp.sampleOp 0 0 0 1 1)).heatmap_data
      = HeatmapApi.totalNodes exhaustedHeatmap.heatmap_data ∧
    HeatmapApi.default_subdivision_budget = 8388608 :=
  ⟨⟨by decide, rfl⟩,
   (claim7_subdivision_budget_ceiling 1 HeatmapApi.initState
     [HeatmapOp.initOp [2] 4, HeatmapOp.sampleOp 0 0 0 1 1,
      HeatmapOp.sampleOp 0 0 0 1 1] ⟨by decide, rfl⟩).1.1,
   rfl,
   ((claim7_subdivision_budget_ceiling 1 exhaustedHeatmap [] ⟨by decide, by decide⟩).2.1
     0 0 0 1 1 rfl).1,
   ((claim7_subdivision_budget_ceiling 1 exhaustedHeatmap [] ⟨by decide, by decide⟩).2.1
     0 0 0 1 1 rfl).2.1,
   (claim7_subdivision_budget_ceiling 1 exhaustedHeatmap [] ⟨by decide, by
     decide⟩).2.2⟩
